import Mathlib

/-!
Shallow embedding of the Research2PPT application (App.tsx, services/pdfService.ts,
services/geminiService.ts, types.ts, components/SlidePreview.tsx).

The application is a single-page tool that turns a document into a slide deck.
We embed the presentation data model, the generation/edit/export lifecycle and
the controller state machine as pure Lean functions.  Asynchronous external
calls (PDF engine, content-generation service, PPT serializer) are modelled by
passing their settled results as explicit parameters; template identifiers and
the detailLevel/audience enumerations are runtime strings in the source, so
they are modelled as `String`.
-/

namespace Research2PPT

/-- Application status enum (types.ts, `AppStatus`). -/
inductive AppStatus where
  | IDLE
  | PARSING_PDF
  | GENERATING_CONTENT
  | GENERATING_PPT
  | SUCCESS
  | ERROR
deriving DecidableEq, Repr

/-- One content slide (types.ts, `SlideData`).  `image` is an optional
base64 data URI. -/
structure SlideData where
  title : String
  bulletPoints : List String
  speakerNotes : String
  image : Option String
deriving DecidableEq, Repr

/-- The in-memory presentation document (types.ts, `PresentationData`). -/
structure PresentationData where
  title : String
  subtitle : Option String
  slides : List SlideData
  template : Option String
  titleImage : Option String
deriving DecidableEq, Repr

/-- Generation options (types.ts, `GenerationConfig`). -/
structure GenerationConfig where
  numSlides : Nat
  detailLevel : String
  audience : String
  template : String
  titleImage : Option String
deriving DecidableEq, Repr

/-- The input tab selection in the UI (App.tsx `activeTab`). -/
inductive Tab where
  | upload
  | text
deriving DecidableEq, Repr

/-- The controller state owned by the `App` component (App.tsx lines 22-38):
status, input text, error message, presentation data, config, active tab. -/
structure AppState where
  status : AppStatus
  inputText : String
  errorMsg : Option String
  presentationData : Option PresentationData
  config : GenerationConfig
  activeTab : Tab
deriving DecidableEq, Repr

/-- The structured JSON object returned by the content-generation service and
parsed in geminiService.ts (schema: title required, subtitle optional, slides
required). -/
structure ServiceResult where
  title : String
  subtitle : Option String
  slides : List SlideData
deriving DecidableEq, Repr

/-- geminiService.ts lines 57-71: the prompt template literal.  It embeds the
audience, detail level, approximate slide count and a truncated prefix of the
source text (`text.substring(0, 30000)`); the trailing comment of the template
literal is part of the string itself. -/
def buildPrompt (text : String) (config : GenerationConfig) : String :=
  "\n    Analyze the following academic/research text and structure it into a PowerPoint presentation.\n    \n    Target Audience: "
    ++ config.audience
    ++ "\n    Detail Level: " ++ config.detailLevel
    ++ "\n    Approximate Number of Slides: " ++ toString config.numSlides
    ++ "\n    \n    Requirements:\n    1. Create a compelling Title Slide.\n    2. Break down the paper into logical sections (Introduction, Methodology, Results, Discussion, Conclusion).\n    3. For each slide, provide a clear Title, 3-5 concise Bullet Points, and detailed Speaker Notes explaining the points.\n    \n    Input Text:\n    "
    ++ text.take 30000
    ++ " // Truncate to avoid hard limits, though Flash handles large context well.\n  "

/-- geminiService.ts lines 110-118: the parsed service response is mapped to a
`PresentationData` whose `template` and `titleImage` are left unset (the code
comment reads: Template and titleImage are undefined here, will be merged in
App.tsx).  The network call itself is modelled by taking the parsed response
as input. -/
def generatePresentationContent (result : ServiceResult) : PresentationData :=
  { title := result.title
    subtitle := result.subtitle
    slides := result.slides
    template := none
    titleImage := none }

/-- The JavaScript `String.prototype.trim` builtin used at App.tsx line 101:
removes leading and trailing whitespace. -/
def jsTrim (s : String) : String :=
  ⟨(((s.data.dropWhile Char.isWhitespace).reverse).dropWhile
      Char.isWhitespace).reverse⟩

/-- App.tsx line 102: the message shown when generate is invoked with no input. -/
def missingInputMsg : String := "Please provide text or upload a document first."

/-- App.tsx line 120: fallback message when the generation error has no message. -/
def generationFailedMsg : String := "AI Generation failed. Please try again."

/-- App.tsx lines 100-123, `handleGenerate`: the settled state after the handler
runs, together with a flag telling whether a generation request was issued.
`result` is the settled outcome of `generatePresentationContent` (ok carries
the parsed service response, error carries the thrown message).  On success the
config visuals are merged into the data (lines 112-116). -/
def handleGenerate (s : AppState) (result : Except String ServiceResult) :
    AppState × Bool :=
  if jsTrim s.inputText = "" then
    ({ s with errorMsg := some missingInputMsg }, false)
  else
    match result with
    | .ok r =>
        ({ s with
            presentationData := some
              { generatePresentationContent r with
                  template := some s.config.template
                  titleImage := s.config.titleImage }
            status := .SUCCESS
            errorMsg := none }, true)
    | .error m =>
        ({ s with
            errorMsg := some (if m = "" then generationFailedMsg else m)
            status := .ERROR }, true)

/-- App.tsx lines 388-392: the Generate button is rendered with
`disabled={status === AppStatus.GENERATING_CONTENT}`, so a click while a
generation is in flight never reaches `handleGenerate`. -/
def clickGenerate (s : AppState) (result : Except String ServiceResult) :
    AppState × Bool :=
  if s.status = AppStatus.GENERATING_CONTENT then (s, false)
  else handleGenerate s result

/-- App.tsx lines 161-168, `resetApp`: clears the presentation, input text,
error, returns to IDLE and the upload tab, and re-creates the config with only
`titleImage` cleared. -/
def resetApp (s : AppState) : AppState :=
  { s with
      presentationData := none
      inputText := ""
      status := .IDLE
      activeTab := .upload
      errorMsg := none
      config := { s.config with titleImage := none } }

/-- pdfService.ts line 28: the text of one PDF page is the page items joined
with a single space (the map over textContent.items joined with a single
space). -/
def pageText (items : List String) : String :=
  String.intercalate " " items

/-- pdfService.ts lines 19-32, `extractTextFromPdf`: the loop
`for i = 1..min(numPages, 15)` appending `pageText + blank line` to the
accumulator.  A document is modelled as the list of its pages, each page the
list of its text item strings. -/
def extractTextFromPdf (doc : List (List String)) : String :=
  (doc.take 15).foldl (fun acc page => acc ++ pageText page ++ "\n\n") ""

/-- An uploaded file as the ingestion code sees it: a declared MIME type, the
text content (`file.text()`) and, for PDFs, the decoded pages handed to the
extraction engine. -/
structure UploadedFile where
  type : String
  text : String
  pdfPages : List (List String)
deriving DecidableEq, Repr

/-- App.tsx line 64: message for an unsupported MIME type. -/
def unsupportedFormatMsg : String :=
  "Unsupported file format. Please upload PDF or TXT."

/-- App.tsx line 68: message for a result shorter than 50 characters. -/
def emptyOrUnreadableMsg : String :=
  "The document appears to be empty or unreadable."

/-- App.tsx line 76: fallback message when the parse error has no message. -/
def parseFailedMsg : String := "Failed to parse file."

/-- App.tsx lines 50-81, `handleFileUpload`: the settled state after ingestion.
PDF files go through `extractTextFromPdf`, plain text files are read directly,
anything else throws `unsupportedFormatMsg`; a result shorter than 50
characters throws `emptyOrUnreadableMsg`.  On success the text is stored, the
status returns to IDLE and the text tab is activated; on failure the message is
stored and the status becomes ERROR, the stored input text untouched. -/
def handleFileUpload (s : AppState) (f : UploadedFile) : AppState :=
  let textResult : Except String String :=
    if f.type = "application/pdf" then .ok (extractTextFromPdf f.pdfPages)
    else if f.type = "text/plain" then .ok f.text
    else .error unsupportedFormatMsg
  match textResult with
  | .ok t =>
      if t.length < 50 then
        { s with errorMsg := some emptyOrUnreadableMsg, status := .ERROR }
      else
        { s with
            inputText := t
            status := .IDLE
            activeTab := .text
            errorMsg := none }
  | .error m =>
      { s with
          errorMsg := some (if m = "" then parseFailedMsg else m)
          status := .ERROR }

/-- App.tsx lines 128-140: `newSlides[index] = {...newSlides[index], image}`,
the in-bounds array update replacing the image of one slide. -/
def setSlideImage : List SlideData → Nat → Option String → List SlideData
  | [], _, _ => []
  | sl :: rest, 0, img => { sl with image := img } :: rest
  | sl :: rest, n + 1, img => sl :: setSlideImage rest n img

/-- App.tsx lines 125-146, `handleUpdateSlideImage` acting on the current
presentation: a `some` file attaches its base64 data as `slides[index].image`,
`none` removes the image (`image: undefined`); the surrounding slides and the
rest of the presentation are copied unchanged. -/
def handleUpdateSlideImage (p : PresentationData) (index : Nat)
    (file : Option String) : PresentationData :=
  { p with slides := setSlideImage p.slides index file }

/-- App.tsx line 156: message when PPT generation fails. -/
def pptFailedMsg : String := "Failed to generate PPT file."

/-- App.tsx lines 148-159, `handleDownload`: the settled state after an export
attempt.  Without a presentation the handler returns immediately; otherwise the
export either succeeds (status back to SUCCESS) or fails (message stored,
status ERROR); `presentationData` is never written. -/
def handleDownload (s : AppState) (exportOk : Bool) : AppState :=
  match s.presentationData with
  | none => s
  | some _ =>
      if exportOk then { s with status := .SUCCESS }
      else { s with errorMsg := some pptFailedMsg, status := .ERROR }

/-- SlidePreview.tsx lines 54-61, `getHeaderColor`: the switch over the
template identifier; the `classic` case shares the `default` branch. -/
def getHeaderColor (template : String) : String :=
  if template = "dark" then "bg-gray-900"
  else if template = "corporate" then "bg-emerald-700"
  else if template = "modern" then "bg-slate-900"
  else "bg-blue-600"

/-- SlidePreview.tsx line 86: the bullet accent class,
text-indigo-500 when the template equals "dark", text-blue-500 otherwise. -/
def bulletAccent (template : String) : String :=
  if template = "dark" then "text-indigo-500" else "text-blue-500"

/-- App.tsx line 484: the template value passed to each `SlidePreview`,
the template of presentationData with "classic" substituted for a falsy
value (JS: both `undefined` and the empty
string are falsy). -/
def slideTemplateProp (template : Option String) : String :=
  match template with
  | none => "classic"
  | some t => if t = "" then "classic" else t

/-- App.tsx line 456: the title-slide background color,
the hex color 111827 for template "dark", 059669 for "corporate" and 2563EB
otherwise. -/
def titleSlideBackground (template : Option String) : String :=
  if template = some "dark" then "#111827"
  else if template = some "corporate" then "#059669"
  else "#2563EB"

/-- Modelled from the spec: the export serializer (services/pptService.ts,
`generatePptFile`) is not part of the provided sources.  Per the spec, the
template is always normalized to one of the four known identifiers before
being used for export, unknown values falling back to classic. -/
def exportTemplate (template : Option String) : String :=
  match template with
  | none => "classic"
  | some t =>
      if t = "classic" ∨ t = "modern" ∨ t = "dark" ∨ t = "corporate" then t
      else "classic"

/-- The formal reading of several spec sentences: a list of page texts
concatenated in order with a given separator placed between consecutive pages
(and nowhere else). -/
def sepConcat (sep : String) : List String → String
  | [] => ""
  | [p] => p
  | p :: rest => p ++ sep ++ sepConcat sep (rest)

/-- A default slide value used as the fallback of list lookups in statements. -/
def defaultSlide : SlideData :=
  { title := "", bulletPoints := [], speakerNotes := "", image := none }

/-- A sample configuration used by the concrete witnesses. -/
def sampleConfig : GenerationConfig :=
  { numSlides := 8
    detailLevel := "brief"
    audience := "academic"
    template := "modern"
    titleImage := some "cover-data-uri" }

/-- A sample slide used by the concrete witnesses. -/
def sampleSlide : SlideData :=
  { title := "Introduction"
    bulletPoints := [ "point one", "point two"]
    speakerNotes := "some notes"
    image := none }

/-- A sample presentation used by the concrete witnesses. -/
def samplePresentation : PresentationData :=
  { title := "Results Overview"
    subtitle := some "Authors"
    slides := [sampleSlide]
    template := some "modern"
    titleImage := none }

/-- A sample generator response used by the concrete witnesses. -/
def sampleResult : ServiceResult :=
  { title := "Generated Title"
    subtitle := some "Generated Subtitle"
    slides := [sampleSlide] }

/-- A sample controller state used by the concrete witnesses. -/
def sampleState : AppState :=
  { status := .IDLE
    inputText := "Some research abstract text"
    errorMsg := none
    presentationData := none
    config := sampleConfig
    activeTab := .text }

/-! ### Helper lemmas -/

/-- String concatenation is associative. -/
theorem strAppend_assoc (a b c : String) : a ++ b ++ c = a ++ (b ++ c) := by
  apply String.ext
  simp [String.data_append]

/-- Folding the page-accumulation step of `extractTextFromPdf` over a nonempty
list produces the pages joined by the blank-line separator, followed by one
trailing separator. -/
theorem foldl_pages {α : Type} (f : α → String) :
    ∀ (l : List α) (acc : String), l ≠ [] →
      l.foldl (fun a x => a ++ f x ++ "\n\n") acc
        = acc ++ sepConcat "\n\n" (l.map f) ++ "\n\n"
  | [], _, h => absurd rfl h
  | [x], acc, _ => by
      simp [sepConcat]
  | x :: y :: rest, acc, _ => by
      have ih := foldl_pages f (y :: rest) (acc ++ f x ++ "\n\n") (by simp)
      simp only [List.foldl] at ih ⊢
      rw [ih]
      apply String.ext
      simp [sepConcat, String.data_append, List.append_assoc]

/-- `setSlideImage` preserves the number of slides. -/
theorem length_setSlideImage :
    ∀ (l : List SlideData) (i : Nat) (img : Option String),
      (setSlideImage l i img).length = l.length
  | [], _, _ => rfl
  | _ :: _, 0, _ => rfl
  | _ :: rest, n + 1, img => by
      simp [setSlideImage, length_setSlideImage rest n img]

/-- In bounds, `setSlideImage` sets exactly the requested image value. -/
theorem image_setSlideImage :
    ∀ (l : List SlideData) (i : Nat) (img : Option String), i < l.length →
      ((setSlideImage l i img).getD i defaultSlide).image = img
  | [], _, _, h => absurd h (by simp)
  | _ :: _, 0, _, _ => rfl
  | _ :: rest, n + 1, img, h => by
      simp only [setSlideImage, List.getD_cons_succ]
      exact image_setSlideImage rest n img (by simpa using h)

/-! ### Claims -/

/-- C1: for every successful generation, the resulting Presentation equals the
generator content output (title, subtitle, slides) merged with the current
config template and titleImage; the generator itself returns a Presentation
with template and titleImage unset, and the prompt it builds does not depend
on those two config fields. -/
theorem C1_generation_merges_config_visuals (s : AppState) (r : ServiceResult)
    (t : String) (img : Option String) (h : jsTrim s.inputText ≠ "") :
    (handleGenerate s (Except.ok r)).1.presentationData
        = some { title := r.title
                 subtitle := r.subtitle
                 slides := r.slides
                 template := some s.config.template
                 titleImage := s.config.titleImage }
    ∧ (handleGenerate s (Except.ok r)).1.status = AppStatus.SUCCESS
    ∧ (generatePresentationContent r).template = none
    ∧ (generatePresentationContent r).titleImage = none
    ∧ buildPrompt s.inputText { s.config with template := t, titleImage := img }
        = buildPrompt s.inputText s.config := by
  refine ⟨?_, ?_, rfl, rfl, rfl⟩ <;>
    simp [handleGenerate, h, generatePresentationContent]

/-- C1 witness at a concrete state and generator response. -/
theorem C1_witness :
    jsTrim sampleState.inputText ≠ ""
    ∧ ((handleGenerate sampleState (Except.ok sampleResult)).1.presentationData
          = some { title := sampleResult.title
                   subtitle := sampleResult.subtitle
                   slides := sampleResult.slides
                   template := some sampleState.config.template
                   titleImage := sampleState.config.titleImage }
        ∧ (handleGenerate sampleState (Except.ok sampleResult)).1.status
            = AppStatus.SUCCESS
        ∧ (generatePresentationContent sampleResult).template = none
        ∧ (generatePresentationContent sampleResult).titleImage = none
        ∧ buildPrompt sampleState.inputText
              { sampleState.config with template := "weird", titleImage := some "x" }
            = buildPrompt sampleState.inputText sampleState.config) :=
  ⟨by decide,
   C1_generation_merges_config_visuals sampleState sampleResult "weird"
     (some "x") (by decide)⟩

/-- C2: a template identifier outside the four known ones renders and exports
exactly as the classic template: the slide header color, the bullet accent and
the title-slide background computed for it coincide with the classic ones, and
the export-side normalization yields classic. -/
theorem C2_unknown_template_falls_back_to_classic (x : String)
    (h : x ∉ ([ "classic", "modern", "dark", "corporate"] : List String)) :
    getHeaderColor (slideTemplateProp (some x)) = getHeaderColor "classic"
    ∧ bulletAccent (slideTemplateProp (some x)) = bulletAccent "classic"
    ∧ titleSlideBackground (some x) = titleSlideBackground (some "classic")
    ∧ exportTemplate (some x) = "classic" := by
  simp only [List.mem_cons, List.not_mem_nil, or_false, not_or] at h
  obtain ⟨h1, h2, h3, h4⟩ := h
  by_cases hx : x = ""
  · subst hx
    refine ⟨rfl, rfl, ?_, rfl⟩
    simp +decide [titleSlideBackground]
  · simp +decide [slideTemplateProp, getHeaderColor, bulletAccent,
      titleSlideBackground, exportTemplate, hx, h1, h2, h3, h4]

/-- C2 witness at the concrete unknown identifier "neon". -/
theorem C2_witness :
    ("neon" : String) ∉ ([ "classic", "modern", "dark", "corporate"] : List String)
    ∧ (getHeaderColor (slideTemplateProp (some "neon")) = getHeaderColor "classic"
        ∧ bulletAccent (slideTemplateProp (some "neon")) = bulletAccent "classic"
        ∧ titleSlideBackground (some "neon") = titleSlideBackground (some "classic")
        ∧ exportTemplate (some "neon") = "classic") :=
  ⟨by decide, C2_unknown_template_falls_back_to_classic "neon" (by decide)⟩

/-- C3: clicking generate while a generation is in flight is a no-op: the
Generate button is disabled during GENERATING_CONTENT, so the state is
unchanged and no request is issued. -/
theorem C3_generate_noop_while_generating (s : AppState)
    (r : Except String ServiceResult) (h : s.status = AppStatus.GENERATING_CONTENT) :
    clickGenerate s r = (s, false) := by
  simp [clickGenerate, h]

/-- C3 witness at a concrete in-flight state. -/
theorem C3_witness :
    ({ sampleState with status := AppStatus.GENERATING_CONTENT } : AppState).status
        = AppStatus.GENERATING_CONTENT
    ∧ clickGenerate { sampleState with status := AppStatus.GENERATING_CONTENT }
          (Except.error "boom")
        = ({ sampleState with status := AppStatus.GENERATING_CONTENT }, false) :=
  ⟨rfl, C3_generate_noop_while_generating _ _ rfl⟩

/-- C4: reset yields status IDLE, no presentation, empty input text and no
error, clears the config titleImage and leaves every other config field
(template, audience, detailLevel, numSlides) unchanged. -/
theorem C4_reset_clears_only_transients (s : AppState) :
    (resetApp s).status = AppStatus.IDLE
    ∧ (resetApp s).presentationData = none
    ∧ (resetApp s).inputText = ""
    ∧ (resetApp s).errorMsg = none
    ∧ (resetApp s).config.titleImage = none
    ∧ (resetApp s).config.template = s.config.template
    ∧ (resetApp s).config.audience = s.config.audience
    ∧ (resetApp s).config.detailLevel = s.config.detailLevel
    ∧ (resetApp s).config.numSlides = s.config.numSlides := by
  simp [resetApp]

/-- C5 counterexample: for a 16-page document the extracted text is NOT the
pages joined with the separator placed only between pages: the code appends a
trailing blank-line separator after the last page as well. -/
theorem C5_counterexample :
    15 < (List.replicate 16 ([ "a"] : List String)).length
    ∧ extractTextFromPdf (List.replicate 16 ([ "a"] : List String))
        ≠ sepConcat "\n\n"
            (((List.replicate 16 ([ "a"] : List String)).take 15).map pageText) := by
  constructor
  · decide
  · decide

/-- C5 (amended): for a document with more than 15 pages the extracted text is
the texts of pages 1 through 15 in order, joined by the blank-line separator
and followed by one trailing blank-line separator, and the result does not
depend on pages 16 and beyond. -/
theorem C5_extract_first_15_pages (doc : List (List String))
    (h : 15 < doc.length) :
    extractTextFromPdf doc
        = sepConcat "\n\n" ((doc.take 15).map pageText) ++ "\n\n"
    ∧ extractTextFromPdf doc = extractTextFromPdf (doc.take 15) := by
  constructor
  · have hne : doc.take 15 ≠ [] := by
      have hlen : (doc.take 15).length = 15 := by
        simp [List.length_take]
        omega
      intro hnil
      rw [hnil] at hlen
      simp at hlen
    have := foldl_pages pageText (doc.take 15) "" hne
    rw [extractTextFromPdf, this]
    apply String.ext
    simp [String.data_append]
  · simp [extractTextFromPdf, List.take_take]

/-- C5 witness at a concrete 16-page document. -/
theorem C5_witness :
    15 < (List.replicate 16 ([ "b"] : List String)).length
    ∧ (extractTextFromPdf (List.replicate 16 ([ "b"] : List String))
          = sepConcat "\n\n"
              (((List.replicate 16 ([ "b"] : List String)).take 15).map pageText)
              ++ "\n\n"
        ∧ extractTextFromPdf (List.replicate 16 ([ "b"] : List String))
            = extractTextFromPdf ((List.replicate 16 ([ "b"] : List String)).take 15)) :=
  ⟨by decide, C5_extract_first_15_pages _ (by decide)⟩

/-- C6: ingesting a plain-text file stores its text unchanged (status back to
IDLE, text tab activated) when the text has at least 50 characters, and fails
with the EmptyOrUnreadable message and the ERROR status when it is shorter. -/
theorem C6_plain_text_ingestion (s : AppState) (f : UploadedFile)
    (h : f.type = "text/plain") :
    (50 ≤ f.text.length →
        handleFileUpload s f
          = { s with
                inputText := f.text
                status := AppStatus.IDLE
                activeTab := Tab.text
                errorMsg := none })
    ∧ (f.text.length < 50 →
        handleFileUpload s f
          = { s with
                errorMsg := some emptyOrUnreadableMsg
                status := AppStatus.ERROR }) := by
  constructor
  · intro hl
    have hge : ¬ f.text.length < 50 := by omega
    simp +decide [handleFileUpload, h, hge]
  · intro hl
    simp +decide [handleFileUpload, h, hl]

/-- C6 witness at a concrete long-enough file and a concrete short file. -/
theorem C6_witness :
    ({ type := "text/plain"
       text := "A plain text document that is certainly long enough to ingest."
       pdfPages := [] } : UploadedFile).type = "text/plain"
    ∧ ({ type := "text/plain", text := "too short", pdfPages := [] }
          : UploadedFile).type = "text/plain"
    ∧ handleFileUpload sampleState
          { type := "text/plain"
            text := "A plain text document that is certainly long enough to ingest."
            pdfPages := [] }
        = { sampleState with
              inputText := "A plain text document that is certainly long enough to ingest."
              status := AppStatus.IDLE
              activeTab := Tab.text
              errorMsg := none }
    ∧ handleFileUpload sampleState
          { type := "text/plain", text := "too short", pdfPages := [] }
        = { sampleState with
              errorMsg := some emptyOrUnreadableMsg
              status := AppStatus.ERROR } :=
  ⟨rfl, rfl,
   (C6_plain_text_ingestion sampleState _ rfl).1 (by decide),
   (C6_plain_text_ingestion sampleState _ rfl).2 (by decide)⟩

/-- C7: ingesting a file whose declared content type is neither
application/pdf nor text/plain fails with the UnsupportedFormat message and
the ERROR status, and the previously stored input text is unchanged. -/
theorem C7_unsupported_format (s : AppState) (f : UploadedFile)
    (h1 : f.type ≠ "application/pdf") (h2 : f.type ≠ "text/plain") :
    handleFileUpload s f
        = { s with
              errorMsg := some unsupportedFormatMsg
              status := AppStatus.ERROR }
    ∧ (handleFileUpload s f).inputText = s.inputText := by
  refine ⟨?_, ?_⟩ <;> simp +decide [handleFileUpload, h1, h2]

/-- C7 witness at a concrete image file. -/
theorem C7_witness :
    ({ type := "image/png", text := "....", pdfPages := [] }
        : UploadedFile).type ≠ "application/pdf"
    ∧ ({ type := "image/png", text := "....", pdfPages := [] }
          : UploadedFile).type ≠ "text/plain"
    ∧ (handleFileUpload sampleState
            { type := "image/png", text := "....", pdfPages := [] }
          = { sampleState with
                errorMsg := some unsupportedFormatMsg
                status := AppStatus.ERROR }
        ∧ (handleFileUpload sampleState
              { type := "image/png", text := "....", pdfPages := [] }).inputText
            = sampleState.inputText) :=
  ⟨by decide, by decide,
   C7_unsupported_format sampleState _ (by decide) (by decide)⟩

/-- C8: attaching an image to slide i and then removing it restores
slides[i].image to absent, for every valid slide index. -/
theorem C8_attach_remove_roundtrip (p : PresentationData) (i : Nat)
    (img : String) (h : i < p.slides.length) :
    (((handleUpdateSlideImage (handleUpdateSlideImage p i (some img)) i
          none).slides.getD i defaultSlide)).image = none := by
  have h2 : i < (setSlideImage p.slides i (some img)).length := by
    rw [length_setSlideImage]
    exact h
  simpa [handleUpdateSlideImage] using
    image_setSlideImage (setSlideImage p.slides i (some img)) i none h2

/-- C8 witness at the sample presentation, slide 0. -/
theorem C8_witness :
    0 < samplePresentation.slides.length
    ∧ (((handleUpdateSlideImage
            (handleUpdateSlideImage samplePresentation 0 (some "img-data")) 0
            none).slides.getD 0 defaultSlide)).image = none :=
  ⟨by decide, C8_attach_remove_roundtrip samplePresentation 0 "img-data" (by decide)⟩

/-- C9: a failed export sets the failure message and the ERROR status but
leaves the presentation value untouched, so it remains selectable for retry. -/
theorem C9_failed_export_retains_presentation (s : AppState)
    (p : PresentationData) (h : s.presentationData = some p) :
    (handleDownload s false).presentationData = s.presentationData
    ∧ (handleDownload s false).status = AppStatus.ERROR
    ∧ (handleDownload s false).errorMsg = some pptFailedMsg := by
  simp [handleDownload, h]

/-- C9 witness at a concrete state holding the sample presentation. -/
theorem C9_witness :
    ({ sampleState with presentationData := some samplePresentation }
        : AppState).presentationData = some samplePresentation
    ∧ ((handleDownload
            { sampleState with presentationData := some samplePresentation }
            false).presentationData
          = ({ sampleState with presentationData := some samplePresentation }
              : AppState).presentationData
        ∧ (handleDownload
              { sampleState with presentationData := some samplePresentation }
              false).status = AppStatus.ERROR
        ∧ (handleDownload
              { sampleState with presentationData := some samplePresentation }
              false).errorMsg = some pptFailedMsg) :=
  ⟨rfl, C9_failed_export_retains_presentation _ samplePresentation rfl⟩

/-- C10: invoking generate with empty or whitespace-only input text stores the
missing-input message, issues no generation request and performs no state
transition: the status keeps its prior value and every other field except the
error message is unchanged. -/
theorem C10_generate_empty_input_no_transition (s : AppState)
    (r : Except String ServiceResult) (h : jsTrim s.inputText = "") :
    handleGenerate s r = ({ s with errorMsg := some missingInputMsg }, false)
    ∧ (handleGenerate s r).1.status = s.status
    ∧ (handleGenerate s r).1.presentationData = s.presentationData := by
  refine ⟨?_, ?_, ?_⟩ <;> simp [handleGenerate, h]

/-- C10 witness at a concrete whitespace-only input. -/
theorem C10_witness :
    jsTrim ({ sampleState with inputText := "   " } : AppState).inputText = ""
    ∧ (handleGenerate { sampleState with inputText := "   " }
          (Except.ok sampleResult)
        = ({ { sampleState with inputText := "   " } with
              errorMsg := some missingInputMsg }, false)
        ∧ (handleGenerate { sampleState with inputText := "   " }
              (Except.ok sampleResult)).1.status
            = ({ sampleState with inputText := "   " } : AppState).status
        ∧ (handleGenerate { sampleState with inputText := "   " }
              (Except.ok sampleResult)).1.presentationData
            = ({ sampleState with inputText := "   " } : AppState).presentationData) :=
  ⟨by decide,
   C10_generate_empty_input_no_transition { sampleState with inputText := "   " }
     (Except.ok sampleResult) (by decide)⟩

end Research2PPT
